import Mathlib

set_option maxRecDepth 100000
set_option maxHeartbeats 4000000

/-!
Shallow embedding of the disk-based result cache of H2Integrate
(`h2integrate/core/model_baseclasses.py`: `CacheBaseConfig` and
`CacheBaseClass`), together with the MD5 digest used for cache keys.

Modelling conventions:
* Python dictionaries (and OpenMDAO's ordered input/output vectors) are
  association lists `List (String × PyVal)` in insertion order; assignment
  to an existing key replaces its value in place, assignment to a fresh key
  appends it at the end, exactly as for a Python `dict`.
* Python values appearing in configurations and model inputs are modelled
  by the inductive `PyVal`; `pyValStr` reproduces Python's `str()` on them
  (numpy float arrays of integral values print as `array([5., 6., 7.])`).
* The file system is a value: a set of existing directory names and an
  association list from file path to file content.  A cache file's content
  either deserializes to a cache dictionary (`FileContent.entry`) or is
  corrupt (`FileContent.corrupt`); `dill_load`/`dill_dump` model the `dill`
  library as a faithful serializer, as the spec assumes of it.
* Reading never modifies the file system, so `load_outputs` consumes the
  file system without returning one; `cache_outputs` returns the updated
  file system or a file-not-found error when the target directory is
  missing (Python's `open("wb")` raises `FileNotFoundError` there and
  creates nothing).
* `hashlib.md5` is implemented in full (RFC 1321) over byte lists; all
  strings involved are ASCII, so UTF-8 encoding is `Char.toNat` per char.
-/

/-- Python runtime values that occur in cache configurations and in
OpenMDAO input/output vectors: integers, strings, booleans and numpy
arrays holding integral floats. -/
inductive PyVal where
  | int : Int → PyVal
  | str : String → PyVal
  | bool : Bool → PyVal
  | arr : List Int → PyVal
deriving DecidableEq, Repr

/-- A Python dictionary (or OpenMDAO vector) as an insertion-ordered
association list. -/
abbrev PyDict : Type := List (String × PyVal)

/-- The single-quote character used by Python `str()` around strings. -/
def squote : String := String.singleton (Char.ofNat 39)

/-- Python `str()` of one value. A numpy float array with small integral
entries prints as `array([5., 6., 7.])`: such values are exactly
representable in float64 and lie far below numpy's scientific-notation
threshold, and every array appearing in the theorems below is short
enough (at most three elements) that numpy emits it on a single line, so
the modelled text is exactly what the program hashes. -/
def pyValStr : PyVal → String
  | .int n => toString n
  | .str s => squote ++ s ++ squote
  | .bool b => if b then "True" else "False"
  | .arr xs => "array([" ++ String.intercalate ", " (xs.map (fun n => toString n ++ ".")) ++ "])"

/-- Python `str()` of one dictionary entry: `'key': value`. -/
def pyEntryStr (e : String × PyVal) : String :=
  squote ++ e.1 ++ squote ++ ": " ++ pyValStr e.2

/-- Python `str()` of a dictionary: entries in insertion order, joined by
a comma and a space, wrapped in braces. -/
def pyDictStr (d : PyDict) : String :=
  "\x7b" ++ String.intercalate ", " (d.map pyEntryStr) ++ "\x7d"

/-- Lookup in a Python dictionary (`d.get(k)` returning `None` when the
key is absent). -/
def dictGet (d : PyDict) (k : String) : Option PyVal :=
  (d.find? (fun e => e.1 == k)).map (·.2)

/-- Lookup with a default (`d.get(k, v0)`). -/
def dictGetD (d : PyDict) (k : String) (v0 : PyVal) : PyVal :=
  (dictGet d k).getD v0

/-- Python dictionary assignment `d[k] = v`: replaces the value of an
existing key in place, appends a fresh key at the end. -/
def dictSet : PyDict → String → PyVal → PyDict
  | [], k, v => [(k, v)]
  | e :: rest, k, v => if e.1 == k then (k, v) :: rest else e :: dictSet rest k v

/-- ASCII bytes of a string, matching `encode("utf-8")` on ASCII text. -/
def strBytes (s : String) : List Nat :=
  s.data.map (fun c => c.toNat)

/-- Addition of 32-bit words. -/
def add32 (a b : Nat) : Nat := (a + b) % 4294967296

/-- Left rotation of a 32-bit word by `c` places. -/
def rotl32 (x c : Nat) : Nat :=
  ((x <<< c) ||| (x >>> (32 - c))) % 4294967296

/-- Bitwise complement of a 32-bit word. -/
def not32 (x : Nat) : Nat := Nat.xor x 4294967295

/-- MD5 per-round shift amounts. -/
def md5s : List Nat :=
  [7, 12, 17, 22, 7, 12, 17, 22, 7, 12, 17, 22, 7, 12, 17, 22,
   5, 9, 14, 20, 5, 9, 14, 20, 5, 9, 14, 20, 5, 9, 14, 20,
   4, 11, 16, 23, 4, 11, 16, 23, 4, 11, 16, 23, 4, 11, 16, 23,
   6, 10, 15, 21, 6, 10, 15, 21, 6, 10, 15, 21, 6, 10, 15, 21]

/-- MD5 sine-derived round constants. -/
def md5K : List Nat :=
  [3614090360, 3905402710, 606105819, 3250441966,
   4118548399, 1200080426, 2821735955, 4249261313,
   1770035416, 2336552879, 4294925233, 2304563134,
   1804603682, 4254626195, 2792965006, 1236535329,
   4129170786, 3225465664, 643717713, 3921069994,
   3593408605, 38016083, 3634488961, 3889429448,
   568446438, 3275163606, 4107603335, 1163531501,
   2850285829, 4243563512, 1735328473, 2368359562,
   4294588738, 2272392833, 1839030562, 4259657740,
   2763975236, 1272893353, 4139469664, 3200236656,
   681279174, 3936430074, 3572445317, 76029189,
   3654602809, 3873151461, 530742520, 3299628645,
   4096336452, 1126891415, 2878612391, 4237533241,
   1700485571, 2399980690, 4293915773, 2240044497,
   1873313359, 4264355552, 2734768916, 1309151649,
   4149444226, 3174756917, 718787259, 3951481745]

/-- MD5 padding: append `0x80`, zero bytes up to 56 mod 64, then the bit
length as eight little-endian bytes. -/
def md5pad (msg : List Nat) : List Nat :=
  let len := msg.length
  let zeros := (119 - len % 64) % 64
  let bitlen := (8 * len) % 18446744073709551616
  msg ++ [128] ++ List.replicate zeros 0 ++
    (List.range 8).map (fun i => bitlen / 256 ^ i % 256)

/-- Split a byte list into 64-byte chunks; the first argument is fuel,
always instantiated with the list length. -/
def chunksAux : Nat → List Nat → List (List Nat)
  | 0, _ => []
  | _, [] => []
  | fuel + 1, x :: xs => (x :: xs).take 64 :: chunksAux fuel ((x :: xs).drop 64)

/-- Split a byte list into 64-byte chunks. -/
def chunks64 (l : List Nat) : List (List Nat) :=
  chunksAux l.length l

/-- The sixteen little-endian 32-bit message words of one 64-byte chunk. -/
def md5words (chunk : List Nat) : List Nat :=
  (List.range 16).map (fun j =>
    chunk.getD (4 * j) 0 + 256 * chunk.getD (4 * j + 1) 0 +
      65536 * chunk.getD (4 * j + 2) 0 + 16777216 * chunk.getD (4 * j + 3) 0)

/-- Working state of the MD5 compression function. -/
structure MD5State where
  a : Nat
  b : Nat
  c : Nat
  d : Nat
deriving DecidableEq, Repr

/-- One of the 64 MD5 rounds. -/
def md5round (M : List Nat) (st : MD5State) (i : Nat) : MD5State :=
  let b := st.b
  let c := st.c
  let d := st.d
  let f :=
    if i < 16 then (b &&& c) ||| (not32 b &&& d)
    else if i < 32 then (d &&& b) ||| (not32 d &&& c)
    else if i < 48 then Nat.xor (Nat.xor b c) d
    else Nat.xor c (b ||| not32 d)
  let g :=
    if i < 16 then i
    else if i < 32 then (5 * i + 1) % 16
    else if i < 48 then (3 * i + 5) % 16
    else (7 * i) % 16
  let fv := (f + st.a + md5K.getD i 0 + M.getD g 0) % 4294967296
  { a := d, b := add32 b (rotl32 fv (md5s.getD i 0)), c := b, d := c }

/-- The MD5 compression function on one 64-byte chunk. -/
def md5chunk (st0 : MD5State) (chunk : List Nat) : MD5State :=
  let M := md5words chunk
  let st := (List.range 64).foldl (md5round M) st0
  { a := add32 st0.a st.a, b := add32 st0.b st.b,
    c := add32 st0.c st.c, d := add32 st0.d st.d }

/-- Four little-endian bytes of a 32-bit word. -/
def toBytesLE (w : Nat) : List Nat :=
  [w % 256, w / 256 % 256, w / 65536 % 256, w / 16777216 % 256]

/-- The sixteen digest bytes of MD5 on a byte list. -/
def md5bytes (msg : List Nat) : List Nat :=
  let st := (chunks64 (md5pad msg)).foldl md5chunk
    { a := 1732584193, b := 4023233417, c := 2562383102, d := 271733878 }
  toBytesLE st.a ++ toBytesLE st.b ++ toBytesLE st.c ++ toBytesLE st.d

/-- One lowercase hexadecimal digit. -/
def hexDigit (n : Nat) : Char :=
  if n < 10 then Char.ofNat (48 + n) else Char.ofNat (87 + n)

/-- Two lowercase hexadecimal characters of one byte. -/
def byteHex (b : Nat) : List Char :=
  [hexDigit (b / 16 % 16), hexDigit (b % 16)]

/-- Lowercase hex string of a byte list (`hexdigest()`). -/
def bytesHex (bs : List Nat) : String :=
  String.mk ((bs.map byteHex).flatten)

/-- `hashlib.md5(s.encode("utf-8")).hexdigest()` on an ASCII string. -/
def md5hex (s : String) : String :=
  bytesHex (md5bytes (strBytes s))

/-- Little-endian natural number value of a byte list; used to show the
digest carries at most 128 bits of information. -/
def natOfBytesLE : List Nat → Nat
  | [] => 0
  | b :: rest => b + 256 * natOfBytesLE rest

/-- Configuration consumed by `CacheBaseConfig`: the enable flag, the
cache directory (a plain name; a cache file's parent directory is exactly
this name), and the owning model's remaining configuration fields. -/
structure CacheConfig where
  enable_caching : Bool
  cache_dir : String
  other_fields : PyDict
deriving DecidableEq, Repr

/-- Modelled from the spec: `BaseConfig.as_dict` is defined in
`h2integrate/core/utilities.py`, which is not part of the provided source
tree; per the spec, the hashed configuration is "a canonicalized
serialization of the model's configuration parameters (excluding the
cache's own enable/location settings)", so `as_dict` returns the model's
configuration fields with `enable_caching` and `cache_dir` excluded. -/
def CacheConfig.as_dict (c : CacheConfig) : PyDict :=
  c.other_fields

/-- The `config` argument of `make_cache_hash_filename`: either a config
object (converted via `as_dict`) or an already-built plain dictionary
(the source `deepcopy`s it, which is the identity in value semantics). -/
inductive ConfigArg where
  | obj (c : CacheConfig)
  | dict (d : PyDict)

/-- The dictionary actually hashed: `config.as_dict()` for an object,
the dictionary itself otherwise (source lines 349-352). -/
def resolveConfig : ConfigArg → PyDict
  | .obj c => c.as_dict
  | .dict d => d

/-- The concatenated string that is hashed (source lines 354-356):
`str(config_dict) + str(dict(inputs.items())) + str(dict(discrete_inputs.items()))`. -/
def hash_dict_str (config_dict inputs discrete_inputs : PyDict) : String :=
  pyDictStr config_dict ++ pyDictStr inputs ++ pyDictStr discrete_inputs

/-- The MD5 cache key of a (config, inputs, discrete_inputs) triple
(source line 359). -/
def config_hash_of (config : ConfigArg) (inputs discrete_inputs : PyDict) : String :=
  md5hex (hash_dict_str (resolveConfig config) inputs discrete_inputs)

/-- `CacheBaseClass.make_cache_hash_filename`: the full path of the cache
file, `self.config.cache_dir / f"{config_hash}.pkl"` (source line 361). -/
def make_cache_hash_filename (self : CacheConfig) (config : ConfigArg)
    (inputs discrete_inputs : PyDict) : String :=
  self.cache_dir ++ "/" ++ config_hash_of config inputs discrete_inputs ++ ".pkl"

/-- The persisted result bundle: a dictionary with top-level keys
`"outputs"` and `"discrete_outputs"`. -/
structure CacheDict where
  outputs : PyDict
  discrete_outputs : PyDict
deriving DecidableEq, Repr

/-- Content of a file on disk: either bytes that `dill.load` deserializes
to a cache dictionary, or bytes that fail to deserialize. -/
inductive FileContent where
  | entry (d : CacheDict)
  | corrupt
deriving DecidableEq, Repr

/-- The file system: the set of existing directories (as plain names) and
a map from file path to content. -/
structure FileSystem where
  dirs : List String
  files : List (String × FileContent)
deriving DecidableEq, Repr

/-- Errors the cache layer can raise. -/
inductive CacheErr where
  /-- `dill.load` failed on an existing file (Python `UnpicklingError`
  or similar): the file is corrupt. -/
  | deserialization
  /-- An exception raised by the discrete-outputs loop of
  `set_outputs_from_cache_dict`: Python `NameError` when `outputs` is
  empty (the loop variable `output_name` of the continuous-outputs loop
  is unbound), Python `KeyError` when the leftover name is not a declared
  discrete output (OpenMDAO's `_DictValues.__setitem__` rejects it), or
  Python `RuntimeError` ("dictionary changed size during iteration") for
  a plain dict that accepts the fresh-key insertion. -/
  | discreteLoopRaised
  /-- Python `FileNotFoundError`: `open("wb")` on a path whose parent
  directory does not exist. -/
  | fileNotFound
deriving DecidableEq, Repr

instance {ε : Type u} {α : Type v} [DecidableEq ε] [DecidableEq α] :
    DecidableEq (Except ε α) := fun x y =>
  match x, y with
  | .ok a, .ok b =>
    if h : a = b then isTrue (by rw [h]) else isFalse (fun hc => h (Except.ok.inj hc))
  | .error a, .error b =>
    if h : a = b then isTrue (by rw [h]) else isFalse (fun hc => h (Except.error.inj hc))
  | .ok _, .error _ => isFalse (fun hc => Except.noConfusion hc)
  | .error _, .ok _ => isFalse (fun hc => Except.noConfusion hc)

/-- `Path(...).exists()` followed by `open("rb")`: the content of the
file at `p`, when present. -/
def lookupFile (fs : FileSystem) (p : String) : Option FileContent :=
  (fs.files.find? (fun e => e.1 == p)).map (·.2)

/-- Write (create or overwrite) the file at path `p`. -/
def setFile : List (String × FileContent) → String → FileContent → List (String × FileContent)
  | [], p, v => [(p, v)]
  | e :: rest, p, v => if e.1 == p then (p, v) :: rest else e :: setFile rest p v

/-- `dill.load` on a file's content. -/
def dill_load : FileContent → Except CacheErr CacheDict
  | .entry d => .ok d
  | .corrupt => .error .deserialization

/-- `dill.dump` of a cache dictionary. -/
def dill_dump (d : CacheDict) : FileContent :=
  .entry d

/-- `CacheBaseConfig.__attrs_post_init__` (source lines 161-168): when
caching is enabled and the cache directory does not exist, it is created
(with parents) at configuration-construction time. -/
def CacheBaseConfig.attrs_post_init (self : CacheConfig) (fs : FileSystem) : FileSystem :=
  if self.enable_caching ∧ ¬ self.cache_dir ∈ fs.dirs then
    { fs with dirs := self.cache_dir :: fs.dirs }
  else fs

/-- `CacheBaseClass.set_outputs_from_cache_dict` (source lines 178-201).

The first loop sets every continuous output to its cached value, keeping
the previous (default) value when the cached `outputs` section lacks the
name.  The second loop is translated exactly as written in the source: it
fetches the cached value of each discrete-output name but assigns it to
`discrete_outputs[output_name]`, where `output_name` is the loop variable
left over from the first loop — the last continuous-output name.  Python
raises on this loop in two situations, both modelled as `none`:
* `outputs` is empty and `discrete_outputs` is not: `output_name` is
  unbound and the first iteration raises `NameError`;
* the leftover name is not among the discrete-output names: OpenMDAO's
  `_DictValues.__setitem__` raises `KeyError` on the undeclared name,
  while a plain dict accepts the insertion and then raises
  `RuntimeError` ("dictionary changed size during iteration") at the
  next step of the iteration — either way the call raises rather than
  returning.
When the leftover name is an existing discrete key (or there are no
discrete outputs), every assignment replaces that key in place, the
iteration completes, and it is modelled live: each step reads the
current entry at position `i` (keys, positions and length are unchanged
by in-place replacement) and reassigns the leftover key. -/
def set_outputs_from_cache_dict (cached_dict : CacheDict)
    (outputs discrete_outputs : PyDict) : Option (PyDict × PyDict) :=
  let outputs2 := outputs.map
    (fun e => (e.1, dictGetD cached_dict.outputs e.1 e.2))
  match outputs.getLast? with
  | none =>
    if discrete_outputs.isEmpty then some (outputs2, discrete_outputs) else none
  | some last =>
    if discrete_outputs.isEmpty || (discrete_outputs.map Prod.fst).contains last.1 then
      some (outputs2,
        (List.range discrete_outputs.length).foldl
          (fun acc i =>
            let e := acc.getD i ("", PyVal.bool false)
            dictSet acc last.1 (dictGetD cached_dict.discrete_outputs e.1 e.2))
          discrete_outputs)
    else none

/-- `CacheBaseClass.create_cache_dict_from_outputs` (source lines 203-222). -/
def create_cache_dict_from_outputs (outputs discrete_outputs : PyDict) : CacheDict :=
  { outputs := outputs, discrete_outputs := discrete_outputs }

/-- `CacheBaseClass.load_outputs` (source lines 224-282).

Returns `(loaded, outputs, discrete_outputs, cached_data)` where `loaded`
is the boolean result of the Python method, the two dictionaries are the
(possibly updated) output vectors, and `cached_data` is the deserialized
entry when one was read (`none` on a miss or when caching is disabled).
Reading performs no writes, so the file system is consumed but not
returned: on-disk state is unchanged by construction.  Uncaught Python
exceptions are the `Except.error` case. -/
def load_outputs (self : CacheConfig) (fs : FileSystem)
    (inputs outputs discrete_inputs discrete_outputs : PyDict)
    (config_dict : PyDict) :
    Except CacheErr (Bool × PyDict × PyDict × Option CacheDict) :=
  if ¬ self.enable_caching then
    .ok (false, outputs, discrete_outputs, none)
  else
    let config_dict2 := if config_dict.isEmpty then self.as_dict else config_dict
    let cache_filename := make_cache_hash_filename self (.dict config_dict2) inputs discrete_inputs
    match lookupFile fs cache_filename with
    | none => .ok (false, outputs, discrete_outputs, none)
    | some content =>
      match dill_load content with
      | .error e => .error e
      | .ok cached_data =>
        match set_outputs_from_cache_dict cached_data outputs discrete_outputs with
        | none => .error .discreteLoopRaised
        | some (outputs2, discrete2) => .ok (true, outputs2, discrete2, some cached_data)

/-- `CacheBaseClass.cache_outputs` (source lines 284-330).

Returns the file system after the call.  The method performs no directory
creation: `cache_path.open("wb")` fails with `FileNotFoundError` when the
cache directory is absent, and succeeds (creating or overwriting the
file) when it exists. -/
def cache_outputs (self : CacheConfig) (fs : FileSystem)
    (inputs outputs discrete_inputs discrete_outputs : PyDict)
    (config_dict : PyDict) :
    Except CacheErr FileSystem :=
  if ¬ self.enable_caching then
    .ok fs
  else
    let config_dict2 := if config_dict.isEmpty then self.as_dict else config_dict
    let cache_filename := make_cache_hash_filename self (.dict config_dict2) inputs discrete_inputs
    let output_dict := create_cache_dict_from_outputs outputs discrete_outputs
    if self.cache_dir ∈ fs.dirs then
      .ok { fs with files := setFile fs.files cache_filename (dill_dump output_dict) }
    else
      .error .fileNotFound

/-! Supporting lemmas. -/

/-- Whether a character is a lowercase hexadecimal digit. -/
def hexLower (c : Char) : Bool :=
  (48 ≤ c.toNat && c.toNat ≤ 57) || (97 ≤ c.toNat && c.toNat ≤ 102)

theorem hexLower_hexDigit (n : Nat) (h : n < 16) : hexLower (hexDigit n) = true := by
  have : ∀ m : Fin 16, hexLower (hexDigit m.val) = true := by decide
  exact this ⟨n, h⟩

theorem mem_byteHex_hexLower (b : Nat) (c : Char) (hc : c ∈ byteHex b) :
    hexLower c = true := by
  simp only [byteHex, List.mem_cons, List.not_mem_nil, or_false] at hc
  rcases hc with h | h <;> subst h
  · exact hexLower_hexDigit _ (Nat.mod_lt _ (by norm_num))
  · exact hexLower_hexDigit _ (Nat.mod_lt _ (by norm_num))

theorem md5bytes_length (msg : List Nat) : (md5bytes msg).length = 16 := by
  simp [md5bytes, toBytesLE]

theorem mem_toBytesLE_lt (w x : Nat) (hx : x ∈ toBytesLE w) : x < 256 := by
  simp only [toBytesLE, List.mem_cons, List.not_mem_nil, or_false] at hx
  rcases hx with h | h | h | h <;> subst h <;> exact Nat.mod_lt _ (by norm_num)

theorem mem_md5bytes_lt (msg : List Nat) (x : Nat) (hx : x ∈ md5bytes msg) : x < 256 := by
  have key : ∀ st : MD5State,
      x ∈ toBytesLE st.a ++ toBytesLE st.b ++ toBytesLE st.c ++ toBytesLE st.d → x < 256 := by
    intro st hmem
    simp only [List.mem_append, or_assoc] at hmem
    rcases hmem with h | h | h | h <;> exact mem_toBytesLE_lt _ _ h
  exact key _ hx

theorem natOfBytesLE_lt (l : List Nat) (h : ∀ x ∈ l, x < 256) :
    natOfBytesLE l < 256 ^ l.length := by
  induction l with
  | nil => simp [natOfBytesLE]
  | cons b rest ih =>
    have hb : b < 256 := h b (by simp)
    have hr : natOfBytesLE rest < 256 ^ rest.length :=
      ih (fun x hx => h x (by simp [hx]))
    simp only [natOfBytesLE, List.length_cons, pow_succ]
    calc b + 256 * natOfBytesLE rest
        < 256 + 256 * natOfBytesLE rest := by omega
      _ ≤ 256 * (natOfBytesLE rest + 1) := by ring_nf; omega
      _ ≤ 256 * 256 ^ rest.length := by
          have : natOfBytesLE rest + 1 ≤ 256 ^ rest.length := hr
          exact Nat.mul_le_mul_left _ this
      _ = 256 ^ rest.length * 256 := by ring

theorem natOfBytesLE_inj (l1 l2 : List Nat) (hlen : l1.length = l2.length)
    (h1 : ∀ x ∈ l1, x < 256) (h2 : ∀ x ∈ l2, x < 256)
    (heq : natOfBytesLE l1 = natOfBytesLE l2) : l1 = l2 := by
  induction l1 generalizing l2 with
  | nil =>
    cases l2 with
    | nil => rfl
    | cons b rest => simp at hlen
  | cons b rest ih =>
    cases l2 with
    | nil => simp at hlen
    | cons c rest2 =>
      simp only [natOfBytesLE] at heq
      have hb : b < 256 := h1 b (by simp)
      have hc : c < 256 := h2 c (by simp)
      have hbc : b = c ∧ natOfBytesLE rest = natOfBytesLE rest2 := by
        constructor <;> omega
      have hrest : rest = rest2 :=
        ih rest2 (by simpa using hlen) (fun x hx => h1 x (by simp [hx]))
          (fun x hx => h2 x (by simp [hx])) hbc.2
      rw [hbc.1, hrest]

theorem md5bytes_eq_of_natOfBytesLE_eq (m1 m2 : List Nat)
    (h : natOfBytesLE (md5bytes m1) = natOfBytesLE (md5bytes m2)) :
    md5bytes m1 = md5bytes m2 :=
  natOfBytesLE_inj _ _ (by rw [md5bytes_length, md5bytes_length])
    (mem_md5bytes_lt m1) (mem_md5bytes_lt m2) h

theorem flatten_byteHex_length (bs : List Nat) :
    ((bs.map byteHex).flatten).length = 2 * bs.length := by
  induction bs with
  | nil => simp
  | cons b rest ih =>
    simp only [List.map_cons, List.flatten_cons, List.length_append, ih, List.length_cons]
    simp [byteHex]
    omega

theorem md5hex_length (s : String) : (md5hex s).length = 32 := by
  have h := flatten_byteHex_length (md5bytes (strBytes s))
  rw [md5bytes_length] at h
  simpa [md5hex, bytesHex, String.length] using h

theorem md5hex_chars (s : String) (c : Char) (hc : c ∈ (md5hex s).data) :
    hexLower c = true := by
  simp only [md5hex, bytesHex, List.mem_flatten] at hc
  obtain ⟨l, hl, hcl⟩ := hc
  simp only [List.mem_map] at hl
  obtain ⟨b, _, rfl⟩ := hl
  exact mem_byteHex_hexLower b c hcl

theorem find_setFile (l : List (String × FileContent)) (p : String) (v : FileContent) :
    ((setFile l p v).find? (fun e => e.1 == p)).map (·.2) = some v := by
  induction l with
  | nil => simp [setFile, List.find?]
  | cons e rest ih =>
    by_cases h : e.1 = p
    · simp [setFile, h, List.find?]
    · have hb : (e.1 == p) = false := beq_eq_false_iff_ne.mpr h
      simp only [setFile, hb, if_false, List.find?, hb]
      exact ih

theorem lookupFile_setFile (fs : FileSystem) (p : String) (v : FileContent) :
    lookupFile { fs with files := setFile fs.files p v } p = some v := by
  simp only [lookupFile]
  exact find_setFile fs.files p v

theorem set_outputs_fst (cached : CacheDict) (outputs discrete_outputs o2 d2 : PyDict)
    (h : set_outputs_from_cache_dict cached outputs discrete_outputs = some (o2, d2)) :
    o2 = outputs.map (fun e => (e.1, dictGetD cached.outputs e.1 e.2)) := by
  unfold set_outputs_from_cache_dict at h
  cases houts : outputs.getLast? with
  | none =>
    rw [houts] at h
    by_cases hd : discrete_outputs.isEmpty
    · simp only [hd, if_true, Option.some.injEq, Prod.mk.injEq] at h
      exact h.1.symm
    · simp [hd] at h
  | some last =>
    rw [houts] at h
    simp at h
    exact h.2.1.symm

theorem map_fst_update (f : String × PyVal → PyVal) (l : PyDict) :
    (l.map (fun e => (e.1, f e))).map Prod.fst = l.map Prod.fst := by
  induction l with
  | nil => rfl
  | cons e rest ih => simp [ih]

theorem load_outputs_enabled (self : CacheConfig) (fs : FileSystem)
    (inputs outputs discrete_inputs discrete_outputs config_dict : PyDict)
    (hen : self.enable_caching = true) :
    load_outputs self fs inputs outputs discrete_inputs discrete_outputs config_dict
      = match lookupFile fs (make_cache_hash_filename self
          (.dict (if config_dict.isEmpty then self.as_dict else config_dict))
          inputs discrete_inputs) with
        | none => .ok (false, outputs, discrete_outputs, none)
        | some content =>
          match dill_load content with
          | .error e => .error e
          | .ok cached_data =>
            match set_outputs_from_cache_dict cached_data outputs discrete_outputs with
            | none => .error .discreteLoopRaised
            | some (outputs2, discrete2) => .ok (true, outputs2, discrete2, some cached_data) := by
  unfold load_outputs
  rw [hen]
  rfl

theorem cache_outputs_enabled (self : CacheConfig) (fs : FileSystem)
    (inputs outputs discrete_inputs discrete_outputs config_dict : PyDict)
    (hen : self.enable_caching = true) :
    cache_outputs self fs inputs outputs discrete_inputs discrete_outputs config_dict
      = if self.cache_dir ∈ fs.dirs then
          .ok { fs with
                files := setFile fs.files
                  (make_cache_hash_filename self
                    (.dict (if config_dict.isEmpty then self.as_dict else config_dict))
                    inputs discrete_inputs)
                  (dill_dump (create_cache_dict_from_outputs outputs discrete_outputs)) }
        else .error .fileNotFound := by
  unfold cache_outputs
  rw [hen]
  rfl

theorem load_outputs_disabled (self : CacheConfig) (fs : FileSystem)
    (inputs outputs discrete_inputs discrete_outputs config_dict : PyDict)
    (hdis : self.enable_caching = false) :
    load_outputs self fs inputs outputs discrete_inputs discrete_outputs config_dict
      = .ok (false, outputs, discrete_outputs, none) := by
  unfold load_outputs
  rw [hdis]
  rfl

theorem cache_outputs_disabled (self : CacheConfig) (fs : FileSystem)
    (inputs outputs discrete_inputs discrete_outputs config_dict : PyDict)
    (hdis : self.enable_caching = false) :
    cache_outputs self fs inputs outputs discrete_inputs discrete_outputs config_dict = .ok fs := by
  unfold cache_outputs
  rw [hdis]
  rfl

/-! Claim theorems. -/

/-- Claim C9: `make_cache_hash_filename` is key-deterministic and pure.
In this embedding it is a mathematical function of its arguments — it
takes no file system, performs no I/O, and has no access to object
identity or addresses, so determinism within a run and across restarts
holds by construction.  The substantive content proved here: the returned
filename is always `cache_dir / <digest>.pkl` where the digest is a
fixed-length 32-character lowercase-hex string, i.e. a 128-bit MD5
digest. -/
theorem C9_key_determinism_and_shape (self : CacheConfig) (config : ConfigArg)
    (inputs discrete_inputs : PyDict) :
    make_cache_hash_filename self config inputs discrete_inputs
      = self.cache_dir ++ "/" ++ config_hash_of config inputs discrete_inputs ++ ".pkl"
    ∧ (config_hash_of config inputs discrete_inputs).length = 32
    ∧ ∀ c ∈ (config_hash_of config inputs discrete_inputs).data, hexLower c = true :=
  ⟨rfl, md5hex_length _, fun c hc => md5hex_chars _ c hc⟩

/-- Claim C3: two configurations that differ only in `enable_caching`
and/or `cache_dir` (all other fields equal) produce the same cache key:
the hashed configuration (`as_dict`, modelled from the spec as excluding
those two fields) coincides, so the MD5 digests coincide, and the full
returned paths differ at most in the directory component. -/
theorem C3_cache_control_noninterference (c1 c2 : CacheConfig)
    (h : c1.other_fields = c2.other_fields) (inputs discrete_inputs : PyDict) :
    config_hash_of (.obj c1) inputs discrete_inputs
      = config_hash_of (.obj c2) inputs discrete_inputs
    ∧ make_cache_hash_filename c1 (.obj c1) inputs discrete_inputs
      = c1.cache_dir ++ "/" ++ config_hash_of (.obj c2) inputs discrete_inputs ++ ".pkl" := by
  have hh : config_hash_of (.obj c1) inputs discrete_inputs
      = config_hash_of (.obj c2) inputs discrete_inputs := by
    simp only [config_hash_of, resolveConfig, CacheConfig.as_dict, h]
  exact ⟨hh, by unfold make_cache_hash_filename; rw [hh]⟩

/-- Claim C3 witness: concrete configurations differing in both the
enable flag and the cache directory, sharing the model field `x`. -/
theorem C3_witness :
    config_hash_of (.obj ⟨true, "cacheA", [("x", PyVal.int 1)]⟩) [] []
      = config_hash_of (.obj ⟨false, "cacheB", [("x", PyVal.int 1)]⟩) [] []
    ∧ make_cache_hash_filename ⟨true, "cacheA", [("x", PyVal.int 1)]⟩
        (.obj ⟨true, "cacheA", [("x", PyVal.int 1)]⟩) [] []
      = "cacheA" ++ "/" ++ config_hash_of (.obj ⟨false, "cacheB", [("x", PyVal.int 1)]⟩) [] [] ++ ".pkl" :=
  C3_cache_control_noninterference ⟨true, "cacheA", [("x", PyVal.int 1)]⟩
    ⟨false, "cacheB", [("x", PyVal.int 1)]⟩ rfl [] []

/-- Concrete cache configuration used by the order-sensitivity claims. -/
def C2self : CacheConfig :=
  { enable_caching := true, cache_dir := "cache", other_fields := [] }

/-- Claim C2 counterexample: the two config dictionaries hold the same
entries (they are permutations, and agree on every key), yet because
`make_cache_hash_filename` hashes `str(dict)`, which preserves insertion
order, the produced cache keys differ.  The claim of order-insensitivity
is false on the code. -/
theorem C2_counterexample :
    List.Perm [(("a" : String), PyVal.int 1), ("b", PyVal.int 2)]
        [(("b" : String), PyVal.int 2), ("a", PyVal.int 1)]
    ∧ dictGet [("a", PyVal.int 1), ("b", PyVal.int 2)] "a"
      = dictGet [("b", PyVal.int 2), ("a", PyVal.int 1)] "a"
    ∧ dictGet [("a", PyVal.int 1), ("b", PyVal.int 2)] "b"
      = dictGet [("b", PyVal.int 2), ("a", PyVal.int 1)] "b"
    ∧ make_cache_hash_filename C2self (.dict [("a", PyVal.int 1), ("b", PyVal.int 2)]) [] []
      ≠ make_cache_hash_filename C2self (.dict [("b", PyVal.int 2), ("a", PyVal.int 1)]) [] [] :=
  ⟨List.Perm.swap ("b", PyVal.int 2) ("a", PyVal.int 1) [], by decide, by decide, by decide⟩

/-- Claim C2 amended: the key is a function of the exact serialized entry
sequences only — two `(config, inputs, discrete_inputs)` triples whose
Python string serializations coincide (same entries in the same
enumeration order) always produce the identical cache key; insensitivity
to enumeration order does not hold. -/
theorem C2_amended (self : CacheConfig) (c1 c2 : ConfigArg) (i1 i2 d1 d2 : PyDict)
    (h : hash_dict_str (resolveConfig c1) i1 d1 = hash_dict_str (resolveConfig c2) i2 d2) :
    make_cache_hash_filename self c1 i1 d1 = make_cache_hash_filename self c2 i2 d2 := by
  unfold make_cache_hash_filename config_hash_of
  rw [h]

/-- Claim C2 amended witness: a config object and the plain dictionary it
resolves to serialize identically and receive the same key. -/
theorem C2_amended_witness :
    make_cache_hash_filename C2self (.obj ⟨false, "elsewhere", [("x", PyVal.int 1)]⟩) [] []
      = make_cache_hash_filename C2self (.dict [("x", PyVal.int 1)]) [] [] :=
  C2_amended C2self (.obj ⟨false, "elsewhere", [("x", PyVal.int 1)]⟩)
    (.dict [("x", PyVal.int 1)]) [] [] [] [] rfl

/-- Claim C10: `set_outputs_from_cache_dict` never adds or drops
continuous outputs: the key sequence of `outputs` is unchanged, a
declared output name absent from the cached `outputs` section keeps its
prior (default) value, and a name not declared in `outputs` is never
added to it. -/
theorem C10_load_outputs_frame (cached : CacheDict) (outputs discrete_outputs o2 d2 : PyDict)
    (h : set_outputs_from_cache_dict cached outputs discrete_outputs = some (o2, d2)) :
    o2.map Prod.fst = outputs.map Prod.fst
    ∧ (∀ e ∈ outputs, dictGet cached.outputs e.1 = none → e ∈ o2)
    ∧ ∀ n, n ∉ outputs.map Prod.fst → n ∉ o2.map Prod.fst := by
  have ho := set_outputs_fst cached outputs discrete_outputs o2 d2 h
  subst ho
  have h1 : (outputs.map (fun e => (e.1, dictGetD cached.outputs e.1 e.2))).map Prod.fst
      = outputs.map Prod.fst :=
    map_fst_update (fun e => dictGetD cached.outputs e.1 e.2) outputs
  refine ⟨h1, ?_, ?_⟩
  · intro e he hnone
    refine List.mem_map.mpr ⟨e, he, ?_⟩
    show (e.1, dictGetD cached.outputs e.1 e.2) = e
    rw [dictGetD, hnone]
    exact Prod.mk.eta
  · intro n hn
    rw [h1]
    exact hn

/-- Claim C10 witness: one declared output `p` with default 1; the cached
entry only names `q`, so `p` keeps its default, and `q` is not added. -/
theorem C10_witness :
    set_outputs_from_cache_dict ⟨[("q", PyVal.int 3)], []⟩ [("p", PyVal.int 1)] []
      = some ([("p", PyVal.int 1)], [])
    ∧ ([(("p" : String), PyVal.int 1)].map Prod.fst = [(("p" : String), PyVal.int 1)].map Prod.fst
      ∧ (∀ e ∈ [(("p" : String), PyVal.int 1)],
          dictGet [("q", PyVal.int 3)] e.1 = none → e ∈ [(("p" : String), PyVal.int 1)])
      ∧ ∀ n, n ∉ [(("p" : String), PyVal.int 1)].map Prod.fst
          → n ∉ [(("p" : String), PyVal.int 1)].map Prod.fst) :=
  ⟨by decide, C10_load_outputs_frame ⟨[("q", PyVal.int 3)], []⟩ [("p", PyVal.int 1)] []
    [("p", PyVal.int 1)] [] (by decide)⟩

/-- Claim C8: with the enable flag false, `load_outputs` returns `False`
without inspecting the file system at all (its result is the same for any
two file systems, and equals a plain miss), `cache_outputs` returns the
file system unchanged, and any number of consecutive evaluations leaves
the file system exactly as it started. -/
theorem C8_disabled_bypass (self : CacheConfig) (hdis : self.enable_caching = false) :
    (∀ fs fsB inputs outputs discrete_inputs discrete_outputs config_dict,
        load_outputs self fs inputs outputs discrete_inputs discrete_outputs config_dict
          = load_outputs self fsB inputs outputs discrete_inputs discrete_outputs config_dict
        ∧ load_outputs self fs inputs outputs discrete_inputs discrete_outputs config_dict
          = .ok (false, outputs, discrete_outputs, none))
    ∧ (∀ fs inputs outputs discrete_inputs discrete_outputs config_dict,
        cache_outputs self fs inputs outputs discrete_inputs discrete_outputs config_dict = .ok fs)
    ∧ ∀ fs (calls : List (PyDict × PyDict × PyDict × PyDict × PyDict)),
        calls.foldl
          (fun acc call =>
            match cache_outputs self acc call.1 call.2.1 call.2.2.1 call.2.2.2.1 call.2.2.2.2 with
            | .ok fs2 => fs2
            | .error _ => acc) fs = fs := by
  have hload : ∀ fs inputs outputs discrete_inputs discrete_outputs config_dict,
      load_outputs self fs inputs outputs discrete_inputs discrete_outputs config_dict
        = .ok (false, outputs, discrete_outputs, none) := by
    intro fs inputs outputs di dd cd
    exact load_outputs_disabled self fs inputs outputs di dd cd hdis
  have hstore : ∀ fs inputs outputs discrete_inputs discrete_outputs config_dict,
      cache_outputs self fs inputs outputs discrete_inputs discrete_outputs config_dict = .ok fs := by
    intro fs inputs outputs di dd cd
    exact cache_outputs_disabled self fs inputs outputs di dd cd hdis
  refine ⟨fun fs fsB i o di dd cd => ⟨by rw [hload, hload], hload fs i o di dd cd⟩, hstore, ?_⟩
  intro fs calls
  induction calls generalizing fs with
  | nil => rfl
  | cons call rest ih =>
    simp only [List.foldl_cons, hstore] at ih ⊢
    exact ih fs

/-- Claim C8 witness: a disabled configuration, two distinct file
systems, and a two-evaluation sequence. -/
theorem C8_witness :
    (load_outputs ⟨false, "cache", []⟩ ⟨[], []⟩ [] [("p", PyVal.int 1)] [] [] []
        = load_outputs ⟨false, "cache", []⟩ ⟨["cache"], []⟩ [] [("p", PyVal.int 1)] [] [] []
      ∧ load_outputs ⟨false, "cache", []⟩ ⟨[], []⟩ [] [("p", PyVal.int 1)] [] [] []
        = .ok (false, [("p", PyVal.int 1)], [], none))
    ∧ cache_outputs ⟨false, "cache", []⟩ ⟨[], []⟩ [] [("p", PyVal.int 1)] [] [] [] = .ok ⟨[], []⟩
    ∧ [([], [("p", PyVal.int 1)], [], [], []), ([], [("p", PyVal.int 2)], [], [], [])].foldl
        (fun acc call =>
          match cache_outputs ⟨false, "cache", []⟩ acc call.1 call.2.1 call.2.2.1 call.2.2.2.1 call.2.2.2.2 with
          | .ok fs2 => fs2
          | .error _ => acc) ⟨[], []⟩ = ⟨[], []⟩ :=
  ⟨((C8_disabled_bypass ⟨false, "cache", []⟩ rfl).1 ⟨[], []⟩ ⟨["cache"], []⟩ [] [("p", PyVal.int 1)] [] [] []),
   (C8_disabled_bypass ⟨false, "cache", []⟩ rfl).2.1 ⟨[], []⟩ [] [("p", PyVal.int 1)] [] [] [],
   (C8_disabled_bypass ⟨false, "cache", []⟩ rfl).2.2 ⟨[], []⟩ _⟩

/-- Claim C5: when caching is enabled and the file named by the computed
key exists but its contents fail to deserialize, the deserialization
error propagates out of `load_outputs`: the method never catches it and
never turns it into a `False` miss.  `load_outputs` performs no writes
(it consumes the file system without producing one), so on-disk state is
unchanged by construction. -/
theorem C5_corruption_fatal (self : CacheConfig) (fs : FileSystem)
    (inputs outputs discrete_inputs discrete_outputs config_dict : PyDict)
    (hen : self.enable_caching = true)
    (hcor : lookupFile fs
        (make_cache_hash_filename self
          (.dict (if config_dict.isEmpty then self.as_dict else config_dict))
          inputs discrete_inputs) = some .corrupt) :
    load_outputs self fs inputs outputs discrete_inputs discrete_outputs config_dict
      = .error .deserialization := by
  rw [load_outputs_enabled self fs inputs outputs discrete_inputs discrete_outputs config_dict hen,
    hcor]
  rfl

/-- Claim C5 witness: a file system holding a corrupt file at exactly the
computed cache path. -/
theorem C5_witness :
    load_outputs ⟨true, "cache", []⟩
      ⟨["cache"],
        [(make_cache_hash_filename ⟨true, "cache", []⟩ (.dict [("a", PyVal.int 1)]) [] [],
          FileContent.corrupt)]⟩
      [] [("p", PyVal.int 0)] [] [] [("a", PyVal.int 1)]
      = .error .deserialization :=
  C5_corruption_fatal ⟨true, "cache", []⟩ _ [] [("p", PyVal.int 0)] [] [] [("a", PyVal.int 1)]
    rfl (by simp [lookupFile, List.find?])

/-- Concrete cache configuration used by the directory-lifecycle claim. -/
def C6self : CacheConfig :=
  { enable_caching := true, cache_dir := "cache", other_fields := [] }

/-- Claim C6 counterexample: with caching enabled, the cache directory is
created by `CacheBaseConfig.__attrs_post_init__` at configuration
construction — before any write — and the store operation itself
(`cache_outputs`) performs no directory creation: invoked while the
directory is absent it fails with `FileNotFoundError` instead of creating
the directory and persisting the entry. -/
theorem C6_counterexample :
    CacheBaseConfig.attrs_post_init C6self ⟨[], []⟩ = ⟨["cache"], []⟩
    ∧ cache_outputs C6self ⟨[], []⟩ [] [("p", PyVal.int 1)] [] [] [("a", PyVal.int 1)]
      = .error .fileNotFound := by
  constructor
  · decide
  · rw [cache_outputs_enabled C6self ⟨[], []⟩ [] [("p", PyVal.int 1)] [] [] [("a", PyVal.int 1)] rfl,
      if_neg (by decide)]

/-- Claim C6 amended: with caching enabled, the cache directory is
created eagerly at configuration construction (`__attrs_post_init__`,
`mkdir(parents=True, exist_ok=True)`), not lazily by the store operation;
`cache_outputs` itself never creates the directory — when the directory
exists the entry is persisted under the computed key, and when it is
absent the write fails with `FileNotFoundError`. -/
theorem C6_amended (self : CacheConfig) (fs : FileSystem)
    (inputs outputs discrete_inputs discrete_outputs config_dict : PyDict)
    (hen : self.enable_caching = true) :
    self.cache_dir ∈ (CacheBaseConfig.attrs_post_init self fs).dirs
    ∧ (self.cache_dir ∈ fs.dirs →
        cache_outputs self fs inputs outputs discrete_inputs discrete_outputs config_dict
          = .ok { fs with
                  files := setFile fs.files
                    (make_cache_hash_filename self
                      (.dict (if config_dict.isEmpty then self.as_dict else config_dict))
                      inputs discrete_inputs)
                    (dill_dump (create_cache_dict_from_outputs outputs discrete_outputs)) })
    ∧ (self.cache_dir ∉ fs.dirs →
        cache_outputs self fs inputs outputs discrete_inputs discrete_outputs config_dict
          = .error .fileNotFound) := by
  refine ⟨?_, ?_, ?_⟩
  · by_cases hm : self.cache_dir ∈ fs.dirs
    · simp [CacheBaseConfig.attrs_post_init, hm]
    · simp [CacheBaseConfig.attrs_post_init, hen, hm]
  · intro hm
    rw [cache_outputs_enabled self fs inputs outputs discrete_inputs discrete_outputs config_dict hen,
      if_pos hm]
  · intro hm
    rw [cache_outputs_enabled self fs inputs outputs discrete_inputs discrete_outputs config_dict hen,
      if_neg hm]

/-- Claim C6 amended witness: the directory `cache` exists, so the store
persists the entry; on the empty file system the post-init hook creates
the directory. -/
theorem C6_amended_witness :
    C6self.cache_dir ∈ (CacheBaseConfig.attrs_post_init C6self ⟨["cache"], []⟩).dirs
    ∧ (C6self.cache_dir ∈ (⟨["cache"], []⟩ : FileSystem).dirs →
        cache_outputs C6self ⟨["cache"], []⟩ [] [("p", PyVal.int 1)] [] [] [("a", PyVal.int 1)]
          = .ok { dirs := ["cache"],
                  files := setFile []
                    (make_cache_hash_filename C6self
                      (.dict (if [(("a" : String), PyVal.int 1)].isEmpty then C6self.as_dict
                        else [("a", PyVal.int 1)]))
                      [] [])
                    (dill_dump (create_cache_dict_from_outputs [("p", PyVal.int 1)] [])) })
    ∧ (C6self.cache_dir ∉ (⟨["cache"], []⟩ : FileSystem).dirs →
        cache_outputs C6self ⟨["cache"], []⟩ [] [("p", PyVal.int 1)] [] [] [("a", PyVal.int 1)]
          = .error .fileNotFound) :=
  C6_amended C6self ⟨["cache"], []⟩ [] [("p", PyVal.int 1)] [] [] [("a", PyVal.int 1)] rfl

/-- Claim C7 amended: miss-then-hit with the discrete-restoration
proviso.  With caching enabled: (a) when no file exists under the
computed key (in particular when the cache directory is missing, so no
file under it can exist), `load_outputs` returns `False` without error
and leaves the output vectors untouched; (b) after `cache_outputs`
stores the entry built from the computed outputs, a `load_outputs` with
the same key returns `True` and yields exactly that stored entry — the
deserialized dictionary is the stored one and the output vectors are set
from it — whenever the discrete-restoration loop of
`set_outputs_from_cache_dict` completes (in particular whenever the
loading vectors carry no discrete outputs); when it cannot complete, the
load raises instead of returning `True` (see the counterexample). -/
theorem C7_miss_then_hit (self : CacheConfig) (fs : FileSystem)
    (inputs discrete_inputs config_dict outs0 dout0 outputsC discreteC : PyDict)
    (hen : self.enable_caching = true) :
    (lookupFile fs (make_cache_hash_filename self
        (.dict (if config_dict.isEmpty then self.as_dict else config_dict))
        inputs discrete_inputs) = none →
      load_outputs self fs inputs outs0 discrete_inputs dout0 config_dict
        = .ok (false, outs0, dout0, none))
    ∧ ∀ fs2 o2 d2,
        cache_outputs self fs inputs outputsC discrete_inputs discreteC config_dict = .ok fs2 →
        set_outputs_from_cache_dict (create_cache_dict_from_outputs outputsC discreteC) outs0 dout0
          = some (o2, d2) →
        load_outputs self fs2 inputs outs0 discrete_inputs dout0 config_dict
          = .ok (true, o2, d2, some (create_cache_dict_from_outputs outputsC discreteC)) := by
  constructor
  · intro hmiss
    rw [load_outputs_enabled self fs inputs outs0 discrete_inputs dout0 config_dict hen, hmiss]
  · intro fs2 o2 d2 hstore hset
    rw [cache_outputs_enabled self fs inputs outputsC discrete_inputs discreteC config_dict hen]
      at hstore
    by_cases hdir : self.cache_dir ∈ fs.dirs
    · rw [if_pos hdir] at hstore
      obtain rfl := Except.ok.inj hstore
      rw [load_outputs_enabled self _ inputs outs0 discrete_inputs dout0 config_dict hen,
        lookupFile_setFile fs _ _]
      simp only [dill_dump, dill_load]
      rw [hset]
    · rw [if_neg hdir] at hstore
      simp at hstore

/-- Concrete cache configuration used by the miss-then-hit claim. -/
def C7self : CacheConfig :=
  { enable_caching := true, cache_dir := "cache", other_fields := [] }

/-- Claim C7 counterexample: the store succeeds, but the immediately
following load with the same key — on a component with continuous output
`energy` and discrete output `year` — raises (`KeyError` under
OpenMDAO's `_DictValues`, `RuntimeError` for a plain dict) instead of
returning `True` and yielding the stored entry, because the
discrete-restoration loop assigns to the leftover continuous-output name
`energy`, which is not a discrete-output name.  "A load with the same
key returns True and yields E" is therefore false as a universal
statement about the code. -/
theorem C7_counterexample :
    cache_outputs C7self ⟨["cache"], []⟩ [("s", PyVal.int 2)] [("energy", PyVal.int 3)] []
        [("year", PyVal.int 2030)] [("b", PyVal.int 5)]
      = .ok ⟨["cache"],
          [(make_cache_hash_filename C7self (.dict [("b", PyVal.int 5)]) [("s", PyVal.int 2)] [],
            dill_dump ⟨[("energy", PyVal.int 3)], [("year", PyVal.int 2030)]⟩)]⟩
    ∧ load_outputs C7self
        ⟨["cache"],
          [(make_cache_hash_filename C7self (.dict [("b", PyVal.int 5)]) [("s", PyVal.int 2)] [],
            dill_dump ⟨[("energy", PyVal.int 3)], [("year", PyVal.int 2030)]⟩)]⟩
        [("s", PyVal.int 2)] [("energy", PyVal.int 0)] [] [("year", PyVal.int 2000)]
        [("b", PyVal.int 5)]
      = .error .discreteLoopRaised :=
  ⟨by decide, by decide⟩

/-- Claim C7 witness: an empty cache directory misses; after storing the
entry with output `p = 9`, the load hits, returns the stored entry, and
sets the declared output `p` from it. -/
theorem C7_witness :
    load_outputs C7self ⟨["cache"], []⟩ [] [("p", PyVal.int 0)] [] [] [("a", PyVal.int 1)]
      = .ok (false, [("p", PyVal.int 0)], [], none)
    ∧ load_outputs C7self
        ⟨["cache"], [(make_cache_hash_filename C7self
            (.dict (if [(("a" : String), PyVal.int 1)].isEmpty then C7self.as_dict
              else [("a", PyVal.int 1)])) [] [],
          dill_dump (create_cache_dict_from_outputs [("p", PyVal.int 9)] []))]⟩
        [] [("p", PyVal.int 0)] [] [] [("a", PyVal.int 1)]
      = .ok (true, [("p", PyVal.int 9)], [],
          some (create_cache_dict_from_outputs [("p", PyVal.int 9)] [])) :=
  ⟨(C7_miss_then_hit C7self ⟨["cache"], []⟩ [] [] [("a", PyVal.int 1)] [("p", PyVal.int 0)] []
      [("p", PyVal.int 9)] [] rfl).1 (by decide),
   (C7_miss_then_hit C7self ⟨["cache"], []⟩ [] [] [("a", PyVal.int 1)] [("p", PyVal.int 0)] []
      [("p", PyVal.int 9)] [] rfl).2
    ⟨["cache"], [(make_cache_hash_filename C7self
        (.dict (if [(("a" : String), PyVal.int 1)].isEmpty then C7self.as_dict
          else [("a", PyVal.int 1)])) [] [],
      dill_dump (create_cache_dict_from_outputs [("p", PyVal.int 9)] []))]⟩
    [("p", PyVal.int 9)] []
    (by rw [cache_outputs_enabled C7self ⟨["cache"], []⟩ [] [("p", PyVal.int 9)] [] []
        [("a", PyVal.int 1)] rfl, if_pos (by decide)]; rfl)
    (by decide)⟩

/-- Concrete cache configuration used by the key-sensitivity claim. -/
def C4self : CacheConfig :=
  { enable_caching := true, cache_dir := "cache", other_fields := [] }

/-- The `i`-th input name of the pigeonhole family: `w0`, `w1`, ... -/
def C4name (i : Nat) : String :=
  "w" ++ toString i

/-- One member of the pigeonhole family of input mappings: 129 input
names `w0 ... w128`, each holding a one-element array whose value is
`5.0` or `6.0` as chosen by `v`.  Every value is exactly representable
in float64 and numpy renders it on one line exactly as modelled
(`array([5.])` / `array([6.])`), so all `2^129` members of the family
are program-representable and serialize exactly as embedded. -/
def C4inputs (v : Fin 129 → Bool) : PyDict :=
  List.ofFn (fun i : Fin 129 => (C4name i.val, PyVal.arr [if v i then 6 else 5]))

/-- The cache key for config `{"rating_kw": 100}` and one member of the
family. -/
def C4key (v : Fin 129 → Bool) : String :=
  make_cache_hash_filename C4self (.dict [("rating_kw", PyVal.int 100)]) (C4inputs v) []

theorem C4inputs_getD (v : Fin 129 → Bool) (i : Fin 129) :
    (C4inputs v).getD i.val ("", PyVal.bool false)
      = (C4name i.val, PyVal.arr [if v i then 6 else 5]) := by
  have hlen : i.val < (C4inputs v).length := by
    rw [C4inputs, List.length_ofFn]
    exact i.isLt
  rw [List.getD_eq_getElem _ _ hlen]
  simp only [C4inputs, List.getElem_ofFn, Fin.eta]

/-- The 128-bit digest value of a hash string, as an element of the
finite set of possible MD5 digests. -/
def keyDigest (s : String) : Fin (256 ^ 16) :=
  ⟨natOfBytesLE (md5bytes (strBytes s)), by
    have h := natOfBytesLE_lt (md5bytes (strBytes s)) (mem_md5bytes_lt _)
    rwa [md5bytes_length] at h⟩

theorem keyDigest_val (s : String) :
    (keyDigest s).val = natOfBytesLE (md5bytes (strBytes s)) := rfl

/-- Claim C4 counterexample: universal key sensitivity cannot hold.  The
`2^129` mappings of the family `C4inputs` all exist in the program (129
single-element float64 arrays valued `5.0` or `6.0`, rendered exactly as
modelled); any two distinct members list the same names in the same
order and differ in at least one numeric single-element-array value, as
the claim's "including a single element of an array-valued input"
allows.  The cache key is a 128-bit MD5 digest with only `2^128`
possible values, so by the pigeonhole principle two distinct members
share a key.  No explicit MD5 collision is exhibited — the proof is a
cardinality argument over the embedded digest. -/
theorem C4_counterexample :
    ∃ v w : Fin 129 → Bool,
      C4inputs v ≠ C4inputs w
      ∧ (C4inputs v).map Prod.fst = (C4inputs w).map Prod.fst
      ∧ (∃ i : Fin 129, (C4inputs v).getD i.val ("", PyVal.bool false)
          ≠ (C4inputs w).getD i.val ("", PyVal.bool false))
      ∧ C4key v = C4key w := by
  have hcard : Fintype.card (Fin (256 ^ 16)) < Fintype.card (Fin 129 → Bool) := by
    rw [Fintype.card_fin, Fintype.card_fun, Fintype.card_bool, Fintype.card_fin]
    norm_num
  obtain ⟨v, w, hvw, hf⟩ := Fintype.exists_ne_map_eq_of_card_lt
    (fun v : Fin 129 → Bool =>
      keyDigest (hash_dict_str [("rating_kw", PyVal.int 100)] (C4inputs v) [])) hcard
  have hval := congrArg Fin.val hf
  rw [keyDigest_val, keyDigest_val] at hval
  have hb := md5bytes_eq_of_natOfBytesLE_eq
    (strBytes (hash_dict_str [("rating_kw", PyVal.int 100)] (C4inputs v) []))
    (strBytes (hash_dict_str [("rating_kw", PyVal.int 100)] (C4inputs w) []))
    hval
  obtain ⟨i, hi⟩ := Function.ne_iff.mp hvw
  have hbool : ∀ a b : Bool, ((if a then (6 : Int) else 5) = if b then 6 else 5) → a = b := by
    decide
  have hgetD : (C4inputs v).getD i.val ("", PyVal.bool false)
      ≠ (C4inputs w).getD i.val ("", PyVal.bool false) := by
    rw [C4inputs_getD, C4inputs_getD]
    intro hcontra
    apply hi
    have h2 : PyVal.arr [if v i then (6 : Int) else 5]
        = PyVal.arr [if w i then 6 else 5] := congrArg Prod.snd hcontra
    have h3 : [if v i then (6 : Int) else 5] = [if w i then 6 else 5] := PyVal.arr.inj h2
    exact hbool (v i) (w i) (List.cons.inj h3).1
  refine ⟨v, w, ?_, ?_, ⟨i, hgetD⟩, ?_⟩
  · intro heq
    exact hgetD (by rw [heq])
  · have hnames : ∀ u : Fin 129 → Bool,
        (C4inputs u).map Prod.fst = List.ofFn (fun i : Fin 129 => C4name i.val) := by
      intro u
      rw [C4inputs, List.map_ofFn]
      rfl
    rw [hnames, hnames]
  · simp only [C4key, make_cache_hash_filename, config_hash_of, resolveConfig, md5hex]
    rw [hb]

/-- Claim C4 amended (the concrete scenario the claim names): with config
`{"rating_kw": 100}`, changing inputs `{"wind_speed": [5,6,7]}` to
`[5,6,8]` produces a different cache key, and a load with the new inputs
against a cache populated only under the old key returns `False` and
yields nothing.  Universal inequality of keys for all differing inputs is
impossible for a fixed 128-bit digest (see the pigeonhole
counterexample); the serialized hash strings, however, differ whenever
the rendered entries differ, and do so here. -/
theorem C4_scenario_sensitivity :
    make_cache_hash_filename C4self (.dict [("rating_kw", PyVal.int 100)])
        [("wind_speed", PyVal.arr [5, 6, 7])] []
      ≠ make_cache_hash_filename C4self (.dict [("rating_kw", PyVal.int 100)])
        [("wind_speed", PyVal.arr [5, 6, 8])] []
    ∧ load_outputs C4self
        ⟨["cache"],
          [(make_cache_hash_filename C4self (.dict [("rating_kw", PyVal.int 100)])
              [("wind_speed", PyVal.arr [5, 6, 7])] [],
            dill_dump (create_cache_dict_from_outputs [("power", PyVal.arr [1, 2, 3])] []))]⟩
        [("wind_speed", PyVal.arr [5, 6, 8])] [("power", PyVal.arr [0, 0, 0])] [] []
        [("rating_kw", PyVal.int 100)]
      = .ok (false, [("power", PyVal.arr [0, 0, 0])], [], none) := by
  constructor
  · decide
  · decide

/-- Concrete cache configuration used by the round-trip claim. -/
def C1self : CacheConfig :=
  { enable_caching := true, cache_dir := "cache", other_fields := [] }

/-- Claim C1 failing input: the store persists the entry with continuous
output `power = 7` and discrete output `cost_year = 2025`; the
immediately following load with the same `(config, inputs,
discrete_inputs)` should, per the claim (and the method's own
docstring), return `True` with `cost_year` restored to `2025`.  Instead,
because the discrete-outputs loop of `set_outputs_from_cache_dict`
assigns to `discrete_outputs[output_name]` — the leftover loop variable
of the continuous-outputs loop, here `power`, which is not a
discrete-output name — the load raises (`KeyError` under OpenMDAO's
`_DictValues`, `RuntimeError` for a plain dict) and never sets the
discrete outputs from the cache. -/
theorem C1_roundtrip_discrete_bug :
    cache_outputs C1self ⟨["cache"], []⟩ [("x", PyVal.int 1)] [("power", PyVal.int 7)] []
        [("cost_year", PyVal.int 2025)] [("rating_kw", PyVal.int 100)]
      = .ok ⟨["cache"],
          [(make_cache_hash_filename C1self (.dict [("rating_kw", PyVal.int 100)])
              [("x", PyVal.int 1)] [],
            dill_dump ⟨[("power", PyVal.int 7)], [("cost_year", PyVal.int 2025)]⟩)]⟩
    ∧ load_outputs C1self
        ⟨["cache"],
          [(make_cache_hash_filename C1self (.dict [("rating_kw", PyVal.int 100)])
              [("x", PyVal.int 1)] [],
            dill_dump ⟨[("power", PyVal.int 7)], [("cost_year", PyVal.int 2025)]⟩)]⟩
        [("x", PyVal.int 1)] [("power", PyVal.int 0)] [] [("cost_year", PyVal.int 2020)]
        [("rating_kw", PyVal.int 100)]
      = .error .discreteLoopRaised :=
  ⟨by decide, by decide⟩
